import Mathlib

/-!
Shallow embedding of the transport/framing core of
`src/pycanopenclient/canopenclient.py` (class `CANopenClient`).

The socket and platform effects are made explicit:
* `ConnEnv` fixes the OS name reported by `platform.system()` and whether
  the OS-level connect calls succeed (an unsuccessful call raises in
  Python; here it is a `false` flag).
* `SendEnv` fixes whether `sock.sendall` succeeds and the sequence of
  results of successive `sock.recv(1024)` calls, each already decoded
  (a `RecvStep.fail` stands for a `recv` or UTF-8 decode that raises).
* Socket I/O performed by a call is recorded as a `List SockEvent`.

Machine-level detail: Python `str.encode('UTF-8','strict')` is modelled
by `utf8Encode` producing the UTF-8 byte sequence as `List Nat`; a Lean
`String` contains only Unicode scalar values, for which strict UTF-8
encoding never raises (Python can raise only on surrogates, which `Char`
excludes).
-/

inductive SocketType where
  | UNIX : SocketType
  | TCP : SocketType
deriving DecidableEq

/-- A socket object held in `self.sock`: `connected` records whether the
OS-level connect on it has succeeded (in the source a `socket.socket` is
created unconnected and then connected). -/
structure SockObj where
  connected : Bool
deriving DecidableEq

/-- The fields set by `CANopenClient.__init__`. -/
structure CANopenClient where
  sock : Option SockObj
  sock_type : SocketType
  server_address : String
  server_port : Nat
  showVerbose : Bool
deriving DecidableEq

/-- Environment for the connect paths: the value of `platform.system()`
and whether the two OS connect operations succeed (raise-free). -/
structure ConnEnv where
  platform : String
  unixConnectOk : Bool
  tcpConnectOk : Bool
deriving DecidableEq

/-- Socket I/O performed during a call, in order. -/
inductive SockEvent where
  | socketCreate : SockEvent
  | connectAttempt : String → SockEvent
  | createConnAttempt : String → Nat → SockEvent
  | sendallCall : List Nat → SockEvent
  | recvCall : SockEvent
  | close : SockEvent
deriving DecidableEq

/-- Result of a connect operation: returned boolean, resulting object
state, socket I/O performed. -/
structure ConnResult where
  ok : Bool
  post : CANopenClient
  events : List SockEvent
deriving DecidableEq

namespace CANopenClient

/-- Model of `CANopenClient.connectUnixSocket`.  On Linux the source first runs
`self.sock = socket.socket(AF_UNIX, SOCK_STREAM)` (handle set, socket not
yet connected) and only then enters the `try` around
`self.sock.connect(self.server_address)`; when that raises, the handler
returns `False` with `self.sock` still holding the unconnected socket. -/
def connectUnixSocket (env : ConnEnv) (c : CANopenClient) : ConnResult :=
  if env.platform = "Linux" then
    let c1 : CANopenClient := { c with sock := some ⟨false⟩ }
    if env.unixConnectOk then
      ⟨true, { c1 with sock := some ⟨true⟩ },
        [SockEvent.socketCreate, SockEvent.connectAttempt c.server_address]⟩
    else
      ⟨false, c1,
        [SockEvent.socketCreate, SockEvent.connectAttempt c.server_address]⟩
  else
    ⟨false, c, []⟩

/-- Model of `CANopenClient.connectTcpSocket`.  On Linux or Windows the source runs
`self.sock = socket.create_connection((addr, port))` inside the `try`;
when `create_connection` raises, the assignment to `self.sock` never
happens, so the handle is unchanged.  (The `__get_constants` dictionary
builds touch no state and perform no socket I/O, so they are omitted.) -/
def connectTcpSocket (env : ConnEnv) (c : CANopenClient) : ConnResult :=
  if env.platform = "Linux" ∨ env.platform = "Windows" then
    if env.tcpConnectOk then
      ⟨true, { c with sock := some ⟨true⟩ },
        [SockEvent.createConnAttempt c.server_address c.server_port]⟩
    else
      ⟨false, c, [SockEvent.createConnAttempt c.server_address c.server_port]⟩
  else
    ⟨false, c, []⟩

/-- Model of `CANopenClient.connect`: when `self.sock` is not `None` it returns
`True` without any I/O; otherwise it dispatches on `self.sock_type`
(the `SocketType` enum has exactly the members `UNIX` and `TCP`, so the
unsupported-type branch is unreachable for a well-typed `sock_type`). -/
def connect (env : ConnEnv) (c : CANopenClient) : ConnResult :=
  match c.sock with
  | some _ => ⟨true, c, []⟩
  | none =>
    match c.sock_type with
    | SocketType.UNIX => connectUnixSocket env c
    | SocketType.TCP => connectTcpSocket env c

/-- Model of `CANopenClient.disconnect`: closes and clears the handle when
present, otherwise a no-op. -/
def disconnect (c : CANopenClient) : CANopenClient × List SockEvent :=
  match c.sock with
  | some _ => ({ c with sock := none }, [SockEvent.close])
  | none => (c, [])

end CANopenClient

/-- One `sock.recv(1024)` outcome inside the receive loop: a chunk of
bytes decoding (strict UTF-8) to the given text, or a raising
`recv`/decode. -/
inductive RecvStep where
  | chunk : String → RecvStep
  | fail : RecvStep
deriving DecidableEq

/-- Environment for one `sendCommand` call. -/
structure SendEnv where
  sendallOk : Bool
  steps : List RecvStep
deriving DecidableEq

/-- How the `while True` receive loop ends: a normal `break` with the
accumulated text, an exception with the text accumulated so far, or
(`blocked`) the modelled `recv` trace is exhausted with no terminator
seen, i.e. the loop is still blocking in `recv` and the call never
returns. -/
inductive RecvResult where
  | done : String → RecvResult
  | exn : String → RecvResult
  | blocked : RecvResult
deriving DecidableEq

/-- Python `"\r\n" in data` on the character list of `data`. -/
def hasCRLF : List Char → Bool
  | '\r' :: '\n' :: _ => true
  | _ :: rest => hasCRLF rest
  | [] => false

/-- The receive loop of `sendCommand`: `rxBytes = self.sock.recv(1024)`;
`data += rxBytes.decode('UTF-8','strict')`; `if "\r\n" in data: break`.
Also returns the socket I/O performed. -/
def recvLoop : List RecvStep → String → RecvResult × List SockEvent
  | [], _ => (RecvResult.blocked, [])
  | RecvStep.fail :: _, acc => (RecvResult.exn acc, [SockEvent.recvCall])
  | RecvStep.chunk s :: rest, acc =>
    if hasCRLF (acc ++ s).data then
      (RecvResult.done (acc ++ s), [SockEvent.recvCall])
    else
      ((recvLoop rest (acc ++ s)).1,
        SockEvent.recvCall :: (recvLoop rest (acc ++ s)).2)

/-- Code points for which Python `str.isspace()` is true (the set
stripped by `str.strip()` with no argument). -/
def pySpaceCodes : List Nat :=
  [0x9, 0xA, 0xB, 0xC, 0xD, 0x20, 0x1C, 0x1D, 0x1E, 0x1F, 0x85, 0xA0,
   0x1680, 0x2000, 0x2001, 0x2002, 0x2003, 0x2004, 0x2005, 0x2006,
   0x2007, 0x2008, 0x2009, 0x200A, 0x2028, 0x2029, 0x202F, 0x205F, 0x3000]

def pyIsSpace (ch : Char) : Bool := pySpaceCodes.contains ch.toNat

/-- Python `data.replace("\x00", "")`. -/
def removeNulls (s : String) : String :=
  ⟨s.data.filter (fun ch => ch.toNat != 0)⟩

/-- Python `data.strip()`: remove leading and trailing whitespace. -/
def pyStrip (s : String) : String :=
  ⟨((s.data.dropWhile pyIsSpace).reverse.dropWhile pyIsSpace).reverse⟩

/-- The UTF-8 bytes of one scalar value. -/
def utf8EncodeChar (c : Char) : List Nat :=
  let n := c.toNat
  if n < 0x80 then [n]
  else if n < 0x800 then [0xC0 + n / 0x40, 0x80 + n % 0x40]
  else if n < 0x10000 then
    [0xE0 + n / 0x1000, 0x80 + (n / 0x40) % 0x40, 0x80 + n % 0x40]
  else
    [0xF0 + n / 0x40000, 0x80 + (n / 0x1000) % 0x40,
     0x80 + (n / 0x40) % 0x40, 0x80 + n % 0x40]

/-- Python `message.encode('UTF-8', 'strict')` as a byte list. -/
def utf8Encode (s : String) : List Nat :=
  (s.data.map utf8EncodeChar).flatten

namespace CANopenClient

/-- The message-building block of `sendCommand`: `cmd[0]` raises
`IndexError` on an empty command (modelled as `none`); otherwise the
command is transmitted verbatim when it starts with `'['`, else framed
as `"[{index}] {cmd}"` with `str(index)`. -/
def buildMessage (cmd : String) (index : Int) : Option String :=
  match cmd.data.head? with
  | none => none
  | some ch =>
    some (if ch = '[' then cmd else "[" ++ toString index ++ "] " ++ cmd)

/-- Result of one `sendCommand` call: the returned string (`none` when
the call never returns because the receive loop blocks forever), the
object state after the call, and the socket I/O performed. -/
structure SendResult where
  ret : Option String
  post : CANopenClient
  events : List SockEvent
deriving DecidableEq

/-- Model of `CANopenClient.sendCommand`.  `data` starts `""`; an unconnected
client returns it at once with no I/O.  Inside the `try`: build the
message (an `IndexError` from `cmd[0]` is caught, returning `data`
still `""`), encode, `sendall` (a raise is caught, returning `""`),
then the receive loop; a raise mid-loop is caught and the accumulated
`data` is returned uncleaned, while a normal `break` is followed by
`data = data.replace("\x00", "").strip()`.  `self` is never assigned. -/
def sendCommand (env : SendEnv) (c : CANopenClient) (cmd : String)
    (index : Int) : SendResult :=
  if c.sock = none then
    ⟨some "", c, []⟩
  else
    match buildMessage cmd index with
    | none => ⟨some "", c, []⟩
    | some message =>
      if env.sendallOk then
        match (recvLoop env.steps "").1 with
        | RecvResult.blocked =>
          ⟨none, c,
            SockEvent.sendallCall (utf8Encode message) :: (recvLoop env.steps "").2⟩
        | RecvResult.exn d =>
          ⟨some d, c,
            SockEvent.sendallCall (utf8Encode message) :: (recvLoop env.steps "").2⟩
        | RecvResult.done d =>
          ⟨some (pyStrip (removeNulls d)), c,
            SockEvent.sendallCall (utf8Encode message) :: (recvLoop env.steps "").2⟩
      else
        ⟨some "", c, [SockEvent.sendallCall (utf8Encode message)]⟩

end CANopenClient

/-- The byte buffers handed to `sendall`, in order, within an event
trace. -/
def sentBytes (evs : List SockEvent) : List (List Nat) :=
  evs.filterMap (fun e =>
    match e with
    | SockEvent.sendallCall b => some b
    | _ => none)

/-- A connected client, as produced by a successful TCP connect. -/
def connClient : CANopenClient :=
  ⟨some ⟨true⟩, SocketType.TCP, "127.0.0.1", 60000, false⟩

theorem data_mk (l : List Char) : (String.mk l).data = l := rfl

theorem mem_of_mem_dropWhile {α : Type} (p : α → Bool) :
    ∀ (l : List α) (a : α), a ∈ l.dropWhile p → a ∈ l := by
  intro l
  induction l with
  | nil => intro a h; exact absurd h (List.not_mem_nil a)
  | cons x xs ih =>
    intro a h
    rw [List.dropWhile_cons] at h
    split at h
    · exact List.mem_cons_of_mem _ (ih a h)
    · exact h

theorem mem_of_mem_pyStrip (ch : Char) (s : String) :
    ch ∈ (pyStrip s).data → ch ∈ s.data := by
  intro h
  simp only [pyStrip, data_mk] at h
  rw [List.mem_reverse] at h
  have h2 := mem_of_mem_dropWhile pyIsSpace _ _ h
  rw [List.mem_reverse] at h2
  exact mem_of_mem_dropWhile pyIsSpace _ _ h2

theorem nullChar_not_mem_removeNulls (s : String) :
    Char.ofNat 0 ∉ (removeNulls s).data := by
  intro h
  simp only [removeNulls, data_mk] at h
  rw [List.mem_filter] at h
  have h2 := h.2
  simp only [bne_iff_ne, ne_eq] at h2
  exact h2 (by decide)

theorem sentBytes_nil : sentBytes [] = [] := rfl

theorem sentBytes_cons_sendall (b : List Nat) (evs : List SockEvent) :
    sentBytes (SockEvent.sendallCall b :: evs) = b :: sentBytes evs := rfl

theorem sentBytes_cons_recvCall (evs : List SockEvent) :
    sentBytes (SockEvent.recvCall :: evs) = sentBytes evs := rfl

theorem sentBytes_recvLoop (steps : List RecvStep) (acc : String) :
    sentBytes (recvLoop steps acc).2 = [] := by
  induction steps generalizing acc with
  | nil => rfl
  | cons st rest ih =>
    cases st with
    | fail => rfl
    | chunk s =>
      simp only [recvLoop]
      split
      · rfl
      · rw [sentBytes_cons_recvCall]
        exact ih (acc ++ s)

/-- C5: for every connected client and every non-empty command whose
first character is `'['`, `sendCommand` hands exactly the UTF-8 bytes of
the command to `sendall`, verbatim, for every index. -/
theorem c5_bracketed_sent_verbatim (env : SendEnv) (cl : CANopenClient)
    (s : SockObj) (cmd : String) (idx : Int)
    (hs : cl.sock = some s) (hc : cmd.data.head? = some '[') :
    sentBytes (CANopenClient.sendCommand env cl cmd idx).events
      = [utf8Encode cmd] := by
  simp only [CANopenClient.sendCommand, hs, CANopenClient.buildMessage, hc]
  rw [if_neg (by simp)]
  cases hok : env.sendallOk with
  | false => rfl
  | true =>
    cases hr : (recvLoop env.steps "").1 with
    | blocked => simp only [ite_true, sentBytes_cons_sendall, sentBytes_recvLoop]
    | exn d => simp only [ite_true, sentBytes_cons_sendall, sentBytes_recvLoop]
    | done d => simp only [ite_true, sentBytes_cons_sendall, sentBytes_recvLoop]

theorem c5_witness :
    sentBytes (CANopenClient.sendCommand ⟨true, [RecvStep.chunk "[3] OK\r\n"]⟩
      connClient "[3] read 0x1018 1" 7).events
      = [utf8Encode "[3] read 0x1018 1"] :=
  c5_bracketed_sent_verbatim ⟨true, [RecvStep.chunk "[3] OK\r\n"]⟩ connClient
    ⟨true⟩ "[3] read 0x1018 1" 7 (by decide) (by decide)

/-- C6: `sendCommand` on an unconnected client returns the empty string,
leaves the state unchanged and performs no socket I/O at all. -/
theorem c6_unconnected_returns_empty (env : SendEnv) (cl : CANopenClient)
    (cmd : String) (idx : Int) (h : cl.sock = none) :
    CANopenClient.sendCommand env cl cmd idx = ⟨some "", cl, []⟩ := by
  unfold CANopenClient.sendCommand
  rw [h, if_pos rfl]

theorem c6_witness :
    CANopenClient.sendCommand ⟨true, [RecvStep.chunk "[1] OK\r\n"]⟩
      ⟨none, SocketType.TCP, "127.0.0.1", 60000, false⟩ "read 0x1018 1" 1
      = ⟨some "", ⟨none, SocketType.TCP, "127.0.0.1", 60000, false⟩, []⟩ :=
  c6_unconnected_returns_empty ⟨true, [RecvStep.chunk "[1] OK\r\n"]⟩
    ⟨none, SocketType.TCP, "127.0.0.1", 60000, false⟩ "read 0x1018 1" 1 rfl

/-- C10: on a connected client, `sendCommand ""` raises `IndexError` at
`cmd[0]` inside the local `try`, the handler swallows it, the call
returns the empty string and nothing is sent or received. -/
theorem c10_empty_command_swallowed (env : SendEnv) (cl : CANopenClient)
    (s : SockObj) (idx : Int) (h : cl.sock = some s) :
    CANopenClient.sendCommand env cl "" idx = ⟨some "", cl, []⟩ := by
  unfold CANopenClient.sendCommand
  rw [h, if_neg (by simp)]
  rfl

theorem c10_witness :
    CANopenClient.sendCommand ⟨true, [RecvStep.chunk "[1] OK\r\n"]⟩
      connClient "" 1 = ⟨some "", connClient, []⟩ :=
  c10_empty_command_swallowed ⟨true, [RecvStep.chunk "[1] OK\r\n"]⟩
    connClient ⟨true⟩ 1 rfl

/-- C2, counterexample: the empty command does not start with `'['`, yet
nothing is handed to `sendall` (the claimed framed bytes are not
transmitted). -/
theorem c2_counterexample :
    sentBytes (CANopenClient.sendCommand ⟨true, [RecvStep.chunk "[1] OK\r\n"]⟩
      connClient "" 1).events
      ≠ [utf8Encode ("[" ++ toString (1 : Int) ++ "] " ++ "")] := by decide

/-- C2, amended: for every connected client and every NON-EMPTY command
not starting with `'['`, `sendCommand` hands exactly the UTF-8 bytes of
`"[" ++ str(index) ++ "] " ++ cmd` to `sendall`, with no trailing
terminator appended. -/
theorem c2_unbracketed_framed (env : SendEnv) (cl : CANopenClient)
    (s : SockObj) (cmd : String) (ch : Char) (idx : Int)
    (hs : cl.sock = some s) (hc : cmd.data.head? = some ch)
    (hch : ch ≠ '[') :
    sentBytes (CANopenClient.sendCommand env cl cmd idx).events
      = [utf8Encode ("[" ++ toString idx ++ "] " ++ cmd)] := by
  simp only [CANopenClient.sendCommand, hs, CANopenClient.buildMessage, hc]
  rw [if_neg (by simp)]
  rw [if_neg hch]
  cases hok : env.sendallOk with
  | false => rfl
  | true =>
    cases hr : (recvLoop env.steps "").1 with
    | blocked => simp only [ite_true, sentBytes_cons_sendall, sentBytes_recvLoop]
    | exn d => simp only [ite_true, sentBytes_cons_sendall, sentBytes_recvLoop]
    | done d => simp only [ite_true, sentBytes_cons_sendall, sentBytes_recvLoop]

theorem c2_witness :
    sentBytes (CANopenClient.sendCommand ⟨true, [RecvStep.chunk "[1] OK\r\n"]⟩
      connClient "read 0x1018 1" 1).events
      = [utf8Encode ("[" ++ toString (1 : Int) ++ "] " ++ "read 0x1018 1")] :=
  c2_unbracketed_framed ⟨true, [RecvStep.chunk "[1] OK\r\n"]⟩ connClient
    ⟨true⟩ "read 0x1018 1" 'r' 1 (by decide) (by decide) (by decide)

theorem recvLoop_done_hasCRLF :
    ∀ (steps : List RecvStep) (acc d : String),
    (recvLoop steps acc).1 = RecvResult.done d → hasCRLF d.data = true := by
  intro steps
  induction steps with
  | nil => intro acc d h; exact absurd h (by simp [recvLoop])
  | cons st rest ih =>
    intro acc d h
    cases st with
    | fail => exact absurd h (by simp [recvLoop])
    | chunk s =>
      simp only [recvLoop] at h
      by_cases hcr : hasCRLF (acc ++ s).data = true
      · rw [if_pos hcr] at h
        simp only at h
        injection h with h2
        rw [← h2]
        exact hcr
      · rw [if_neg hcr] at h
        exact ih (acc ++ s) d h

/-- C3, counterexample: for the response split `"[1] O"` then `"K\r\n"`,
the value returned by `sendCommand` is `"[1] OK"`, not `"OK"` (the
sequence prefix is not stripped). -/
theorem c3_counterexample :
    (CANopenClient.sendCommand ⟨true, [RecvStep.chunk "[1] O", RecvStep.chunk "K\r\n"]⟩
        connClient "read 0x1018 1" 1).ret = some "[1] OK" ∧
      ("[1] OK" : String) ≠ "OK" := by
  decide

/-- C3, amended: the receive loop returns normally only once the
accumulated decoded text contains `"\r\n"`, and for the response
`"[1] OK\r\n"` split at any point into two reads the final returned
text is `"[1] OK"` (the cleaned text, sequence prefix included). -/
theorem c3_terminator_and_split :
    (∀ (steps : List RecvStep) (acc d : String),
      (recvLoop steps acc).1 = RecvResult.done d → hasCRLF d.data = true) ∧
    (∀ i, i < 9 →
      (CANopenClient.sendCommand
          ⟨true, [RecvStep.chunk (("[1] OK\r\n").take i),
                  RecvStep.chunk (("[1] OK\r\n").drop i)]⟩
          connClient "read 0x1018 1" 1).ret = some "[1] OK") :=
  ⟨recvLoop_done_hasCRLF, by decide⟩

theorem c3_witness :
    hasCRLF ("[1] OK\r\n" : String).data = true ∧
    (CANopenClient.sendCommand
        ⟨true, [RecvStep.chunk (("[1] OK\r\n").take 3),
                RecvStep.chunk (("[1] OK\r\n").drop 3)]⟩
        connClient "read 0x1018 1" 1).ret = some "[1] OK" :=
  ⟨c3_terminator_and_split.1 [RecvStep.chunk "[1] OK\r\n"] "" "[1] OK\r\n" (by decide),
   c3_terminator_and_split.2 3 (by decide)⟩

/-- C4, counterexample: for the raw response `"[1] OK\x00\x00\r\n"` the
value returned by `sendCommand` is `"[1] OK"`, not `"OK"`. -/
theorem c4_counterexample :
    (CANopenClient.sendCommand ⟨true, [RecvStep.chunk "[1] OK\x00\x00\r\n"]⟩
        connClient "read 0x1018 1" 1).ret = some "[1] OK" ∧
      ("[1] OK" : String) ≠ "OK" := by
  decide

/-- C4, amended: whenever the receive loop completes normally, the value
returned by `sendCommand` is the accumulated text with every null byte
removed and whitespace trimmed, and it contains no null character; for
the raw input `"[1] OK\x00\x00\r\n"` the returned value is `"[1] OK"`. -/
theorem c4_nulls_removed :
    (∀ (env : SendEnv) (cl : CANopenClient) (s : SockObj) (cmd : String)
        (ch : Char) (idx : Int) (d : String),
      cl.sock = some s → cmd.data.head? = some ch → env.sendallOk = true →
      (recvLoop env.steps "").1 = RecvResult.done d →
      (CANopenClient.sendCommand env cl cmd idx).ret
          = some (pyStrip (removeNulls d)) ∧
        Char.ofNat 0 ∉ (pyStrip (removeNulls d)).data) ∧
    (CANopenClient.sendCommand ⟨true, [RecvStep.chunk "[1] OK\x00\x00\r\n"]⟩
        connClient "read 0x1018 1" 1).ret = some "[1] OK" := by
  constructor
  · intro env cl s cmd ch idx d hs hc hok hd
    constructor
    · unfold CANopenClient.sendCommand
      rw [if_neg (show ¬cl.sock = none by simp [hs])]
      unfold CANopenClient.buildMessage
      rw [hc, hok, hd]
      rfl
    · intro hmem
      exact nullChar_not_mem_removeNulls d (mem_of_mem_pyStrip _ _ hmem)
  · decide

theorem c4_witness :
    (CANopenClient.sendCommand ⟨true, [RecvStep.chunk "[1] OK\x00\x00\r\n"]⟩
        connClient "read 0x1018 1" 1).ret
      = some (pyStrip (removeNulls "[1] OK\x00\x00\r\n")) ∧
    Char.ofNat 0 ∉ (pyStrip (removeNulls "[1] OK\x00\x00\r\n")).data :=
  c4_nulls_removed.1 ⟨true, [RecvStep.chunk "[1] OK\x00\x00\r\n"]⟩ connClient
    ⟨true⟩ "read 0x1018 1" 'r' 1 "[1] OK\x00\x00\r\n"
    (by decide) (by decide) rfl (by decide)

/-- A fresh, unopened Unix-domain client (default daemon socket path). -/
def uxClient : CANopenClient :=
  ⟨none, SocketType.UNIX, "/tmp/CO_command_socket", 0, false⟩

/-- A fresh, unopened TCP client. -/
def tcpClient : CANopenClient :=
  ⟨none, SocketType.TCP, "127.0.0.1", 60000, false⟩

theorem connect_ok_sock_isSome (env : ConnEnv) (c : CANopenClient)
    (h : (CANopenClient.connect env c).ok = true) :
    ∃ s, (CANopenClient.connect env c).post.sock = some s := by
  rcases c with ⟨sock, st, addr, port, vb⟩
  cases sock with
  | some s => exact ⟨s, rfl⟩
  | none =>
    cases st with
    | UNIX =>
      by_cases hp : env.platform = "Linux"
      · by_cases hu : env.unixConnectOk = true
        · exact ⟨⟨true⟩, by
            simp [CANopenClient.connect, CANopenClient.connectUnixSocket, hp, hu]⟩
        · exfalso
          simp [CANopenClient.connect, CANopenClient.connectUnixSocket,
            hp, hu] at h
      · exfalso
        simp [CANopenClient.connect, CANopenClient.connectUnixSocket, hp] at h
    | TCP =>
      by_cases hp : env.platform = "Linux" ∨ env.platform = "Windows"
      · by_cases ht : env.tcpConnectOk = true
        · exact ⟨⟨true⟩, by
            simp [CANopenClient.connect, CANopenClient.connectTcpSocket, hp, ht]⟩
        · exfalso
          simp [CANopenClient.connect, CANopenClient.connectTcpSocket,
            hp, ht] at h
      · exfalso
        simp [CANopenClient.connect, CANopenClient.connectTcpSocket, hp] at h

/-- C7: once a `connect` call has returned true, a further `connect`
call (under any environment) returns true, changes nothing and performs
no socket I/O. -/
theorem c7_connect_idempotent (env env2 : ConnEnv) (c : CANopenClient)
    (h : (CANopenClient.connect env c).ok = true) :
    CANopenClient.connect env2 (CANopenClient.connect env c).post
      = ⟨true, (CANopenClient.connect env c).post, []⟩ := by
  obtain ⟨s, hs⟩ := connect_ok_sock_isSome env c h
  generalize hpost : (CANopenClient.connect env c).post = p at *
  rcases p with ⟨sock, st, addr, port, vb⟩
  rw [show (⟨sock, st, addr, port, vb⟩ : CANopenClient).sock = sock from rfl] at hs
  subst hs
  rfl

theorem c7_witness :
    CANopenClient.connect ⟨"Linux", true, true⟩
        (CANopenClient.connect ⟨"Linux", true, true⟩ uxClient).post
      = ⟨true, (CANopenClient.connect ⟨"Linux", true, true⟩ uxClient).post, []⟩ :=
  c7_connect_idempotent ⟨"Linux", true, true⟩ ⟨"Linux", true, true⟩ uxClient
    (by decide)

/-- C8: `sendCommand` never assigns to `self`: the state after any call
equals the state before it (socket handle, socket type, address, port
and verbose flag included); and when an exception interrupts the receive
loop, the call returns exactly the text accumulated so far. -/
theorem c8_sendCommand_frame (env : SendEnv) (cl : CANopenClient)
    (cmd : String) (idx : Int) :
    (CANopenClient.sendCommand env cl cmd idx).post = cl ∧
    (∀ (s : SockObj) (ch : Char) (d : String),
      cl.sock = some s → cmd.data.head? = some ch → env.sendallOk = true →
      (recvLoop env.steps "").1 = RecvResult.exn d →
      (CANopenClient.sendCommand env cl cmd idx).ret = some d) := by
  constructor
  · unfold CANopenClient.sendCommand
    by_cases hn : cl.sock = none
    · rw [if_pos hn]
    · rw [if_neg hn]
      cases hb : CANopenClient.buildMessage cmd idx with
      | none => rfl
      | some m =>
        cases hok : env.sendallOk with
        | false => rfl
        | true =>
          cases hr : (recvLoop env.steps "").1 with
          | done d => rfl
          | exn d => rfl
          | blocked => rfl
  · intro s ch d hs hc hok hr
    unfold CANopenClient.sendCommand
    rw [if_neg (show ¬cl.sock = none by simp [hs])]
    unfold CANopenClient.buildMessage
    rw [hc, hok, hr]
    rfl

theorem c8_witness :
    (CANopenClient.sendCommand ⟨true, [RecvStep.chunk "par", RecvStep.fail]⟩
        connClient "read" 1).post = connClient ∧
    (CANopenClient.sendCommand ⟨true, [RecvStep.chunk "par", RecvStep.fail]⟩
        connClient "read" 1).ret = some "par" :=
  ⟨(c8_sendCommand_frame ⟨true, [RecvStep.chunk "par", RecvStep.fail]⟩
      connClient "read" 1).1,
   (c8_sendCommand_frame ⟨true, [RecvStep.chunk "par", RecvStep.fail]⟩
      connClient "read" 1).2 ⟨true⟩ 'r' "par" rfl (by decide) rfl (by decide)⟩

/-- C9: no exception escapes the public boundary: a raising OS-level
connect (either kind) surfaces as a `false` return from `connect`;
`disconnect` always completes with the handle cleared; and every
`sendCommand` run whose receive trace does not block forever returns
some (possibly empty) string — in particular runs in which `cmd[0]`,
`sendall`, `recv` or decoding raise. -/
theorem c9_no_exception_escapes :
    (∀ (env : ConnEnv) (c : CANopenClient), c.sock = none →
      c.sock_type = SocketType.UNIX → env.unixConnectOk = false →
      (CANopenClient.connect env c).ok = false) ∧
    (∀ (env : ConnEnv) (c : CANopenClient), c.sock = none →
      c.sock_type = SocketType.TCP → env.tcpConnectOk = false →
      (CANopenClient.connect env c).ok = false) ∧
    (∀ c : CANopenClient, (CANopenClient.disconnect c).1.sock = none) ∧
    (∀ (env : SendEnv) (cl : CANopenClient) (cmd : String) (idx : Int),
      (recvLoop env.steps "").1 ≠ RecvResult.blocked →
      ∃ r, (CANopenClient.sendCommand env cl cmd idx).ret = some r) := by
  refine ⟨?_, ?_, ?_, ?_⟩
  · intro env c h1 h2 h3
    rcases c with ⟨sock, st, addr, port, vb⟩
    obtain rfl : sock = none := h1
    obtain rfl : st = SocketType.UNIX := h2
    show (CANopenClient.connectUnixSocket env _).ok = false
    simp [CANopenClient.connectUnixSocket, h3, apply_ite ConnResult.ok]
  · intro env c h1 h2 h3
    rcases c with ⟨sock, st, addr, port, vb⟩
    obtain rfl : sock = none := h1
    obtain rfl : st = SocketType.TCP := h2
    show (CANopenClient.connectTcpSocket env _).ok = false
    simp [CANopenClient.connectTcpSocket, h3, apply_ite ConnResult.ok]
  · intro c
    rcases c with ⟨sock, st, addr, port, vb⟩
    cases sock <;> rfl
  · intro env cl cmd idx hnb
    by_cases hn : cl.sock = none
    · exact ⟨"", by unfold CANopenClient.sendCommand; rw [if_pos hn]⟩
    · cases hb : CANopenClient.buildMessage cmd idx with
      | none =>
        exact ⟨"", by unfold CANopenClient.sendCommand; rw [if_neg hn, hb]⟩
      | some m =>
        cases hok : env.sendallOk with
        | false =>
          exact ⟨"", by
            unfold CANopenClient.sendCommand; rw [if_neg hn, hb, hok]; rfl⟩
        | true =>
          cases hr : (recvLoop env.steps "").1 with
          | blocked => exact absurd hr hnb
          | exn d =>
            exact ⟨d, by
              unfold CANopenClient.sendCommand; rw [if_neg hn, hb, hok, hr]; rfl⟩
          | done d =>
            exact ⟨pyStrip (removeNulls d), by
              unfold CANopenClient.sendCommand; rw [if_neg hn, hb, hok, hr]; rfl⟩

theorem c9_witness :
    (CANopenClient.connect ⟨"Linux", false, true⟩ uxClient).ok = false ∧
    (CANopenClient.connect ⟨"Linux", true, false⟩ tcpClient).ok = false ∧
    (CANopenClient.disconnect connClient).1.sock = none ∧
    ∃ r, (CANopenClient.sendCommand ⟨false, [RecvStep.fail]⟩
        connClient "read" 1).ret = some r :=
  ⟨c9_no_exception_escapes.1 ⟨"Linux", false, true⟩ uxClient rfl rfl rfl,
   c9_no_exception_escapes.2.1 ⟨"Linux", true, false⟩ tcpClient rfl rfl rfl,
   c9_no_exception_escapes.2.2.1 connClient,
   c9_no_exception_escapes.2.2.2 ⟨false, [RecvStep.fail]⟩ connClient "read" 1
     (by decide)⟩

/-- C1 (code bug, Unix path): on Linux, when the OS-level
`sock.connect` raises, `connectUnixSocket` returns false but
`self.sock` keeps the freshly created, unconnected socket (the
assignment precedes the `try` block), so the handle is NOT absent; a
subsequent `connect()` then returns true at once, with no connection
attempt and no I/O, although nothing is connected. -/
theorem c1_unix_fail_keeps_handle :
    (CANopenClient.connect ⟨"Linux", false, true⟩ uxClient).ok = false ∧
    (CANopenClient.connect ⟨"Linux", false, true⟩ uxClient).post.sock
      = some ⟨false⟩ ∧
    CANopenClient.connect ⟨"Linux", false, true⟩
        (CANopenClient.connect ⟨"Linux", false, true⟩ uxClient).post
      = ⟨true, (CANopenClient.connect ⟨"Linux", false, true⟩ uxClient).post, []⟩ := by
  decide
